import Mathlib

/-!
Verification of the lodestar backfill-sync, state-transition and anchor-state
initialization fragment.

Conventions of the shallow embedding:
* Machine bytes (roots, hashes, pubkeys, signatures, domains) are modelled as
  `Nat`; structural equality of `Nat` stands for `ssz.Root.equals`.
* Hashing collaborators (`hashTreeRoot` of the various ssz types) are explicit
  function parameters: the code treats them as opaque, so the theorems
  quantify over them, and witnesses instantiate them with concrete functions.
* Asynchronous collaborators (the BLS batch verifier) are function parameters
  returning `Bool`; a thrown `BackfillSyncError` is an `Except.error`.
* In-place mutation of an argument (the `blocks.reverse()` call of
  `verifyBlocks`, and the `state` parameter of `processBlock`) is made
  explicit: the embedding returns the content of the mutated argument after
  the call, next to the call result.
-/

namespace Lodestar

/-! ## Data model: backfill verification (sync/backfill/verify.ts) -/

abbrev Root := Nat

/-- The fields of `allForkTypes.BeaconBlock` that the verified fragment reads:
slot, proposer index, parent root, state root and the root of the body. -/
structure BeaconBlockMsg where
  slot : Nat
  proposerIndex : Nat
  parentRoot : Root
  stateRoot : Root
  bodyRoot : Root
deriving DecidableEq

/-- `allForkTypes.SignedBeaconBlock`: a block message plus its aggregate
proposer signature. -/
structure SignedBeaconBlock where
  message : BeaconBlockMsg
  signature : Nat
deriving DecidableEq

/-- `BackfillSyncErrorCode` from sync/backfill/errors. -/
inductive BackfillSyncErrorCode where
  | NOT_ANCHORED
  | NOT_LINEAR
  | INVALID_SIGNATURE
deriving DecidableEq

/-- `SignatureSetType` from the state-transition utils. -/
inductive SignatureSetType where
  | single
  | aggregate
deriving DecidableEq

/-- `ISignatureSet`: one verifiable unit handed to the BLS batch verifier. -/
structure SignatureSet where
  type : SignatureSetType
  pubkey : Nat
  signingRoot : Root
  signature : Nat
deriving DecidableEq

/-- The for-of loop of `verifyBlocks`, walking the reversed block list.
`nextRoot` is declared `const` in the source and is never reassigned inside
the loop, so the recursive call passes it unchanged; the loop throws
`NOT_ANCHORED` when the mismatching block was compared against a `nextRoot`
still equal to `anchorRoot`, and `NOT_LINEAR` otherwise. -/
def linkLoop (hashBlock : BeaconBlockMsg → Root) :
    List SignedBeaconBlock → Root → Root → Except BackfillSyncErrorCode Unit
  | [], _, _ => .ok ()
  | b :: rest, nextRoot, anchorRoot =>
    if hashBlock b.message ≠ nextRoot then
      if nextRoot = anchorRoot then .error .NOT_ANCHORED
      else .error .NOT_LINEAR
    else
      linkLoop hashBlock rest nextRoot anchorRoot

/-- `verifyBlocks(config, bls, state, blocks, anchorRoot)`.
`hashBlock` stands for `config.getForkTypes(slot).BeaconBlock.hashTreeRoot`,
`getProposerSignatureSet` for `allForks.getProposerSignatureSet(state, ·)`,
and `verifySignatureSets` for `bls.verifySignatureSets`.  The JavaScript
`blocks.reverse()` reverses the caller array in place before the first loop
iteration, so the second component of the result is the content of the caller
array after the call (on every path, thrown or not); on the empty list the
function returns before reversing. -/
def verifyBlocks (hashBlock : BeaconBlockMsg → Root)
    (getProposerSignatureSet : SignedBeaconBlock → SignatureSet)
    (verifySignatureSets : List SignatureSet → Bool)
    (blocks : List SignedBeaconBlock) (anchorRoot : Root) :
    Except BackfillSyncErrorCode Unit × List SignedBeaconBlock :=
  if blocks.length = 0 then
    (.ok (), blocks)
  else
    match linkLoop hashBlock blocks.reverse anchorRoot anchorRoot with
    | .error e => (.error e, blocks.reverse)
    | .ok () =>
      if ! verifySignatureSets (blocks.reverse.map getProposerSignatureSet) then
        (.error .INVALID_SIGNATURE, blocks.reverse)
      else
        (.ok (), blocks.reverse)

deriving instance DecidableEq for Except

/-! Concrete instances used to evaluate `verifyBlocks` at specific inputs.
`hashC1` is a stand-in tree hash that depends on the slot and the parent-root
field, so that mutating a block message changes its hash. -/

def hashC1 : BeaconBlockMsg → Root := fun m => m.slot * 1000 + m.parentRoot + 7

def sigSetC1 : SignedBeaconBlock → SignatureSet :=
  fun b => ⟨.single, b.message.proposerIndex, hashC1 b.message, b.signature⟩

def blsTrue : List SignatureSet → Bool := fun _ => true

def blsFalse : List SignatureSet → Bool := fun _ => false

def blsLenTwo : List SignatureSet → Bool := fun l => l.length == 2

/-- Oldest block of the two-block chain, intact: its hash is 1012. -/
def b0C1 : SignedBeaconBlock := ⟨⟨1, 0, 5, 0, 0⟩, 0⟩

/-- Oldest block with its parent-root field mutated (5 changed to 6); its
hash becomes 1013. -/
def b0mutC1 : SignedBeaconBlock := ⟨⟨1, 0, 6, 0, 0⟩, 0⟩

/-- Newest block: its parent root 1012 is the hash of `b0C1`, and its own
hash is 3019. -/
def b1C1 : SignedBeaconBlock := ⟨⟨2, 0, 1012, 0, 0⟩, 0⟩

/-- The anchor root, equal to the hash of the newest block `b1C1`. -/
def anchorC1 : Root := 3019

/-- In a call from `verifyBlocks` the loop starts with `nextRoot = anchorRoot`
and never changes it, so the only linkage error it can produce is
`NOT_ANCHORED`. -/
theorem linkLoop_fixed_root_error (hashBlock : BeaconBlockMsg → Root)
    (l : List SignedBeaconBlock) (r : Root) (e : BackfillSyncErrorCode)
    (h : linkLoop hashBlock l r r = .error e) : e = .NOT_ANCHORED := by
  induction l with
  | nil => simp [linkLoop] at h
  | cons b rest ih =>
    by_cases hb : hashBlock b.message = r
    · rw [linkLoop, if_neg (by simp [hb])] at h
      exact ih h
    · rw [linkLoop, if_pos (by simpa using hb), if_pos rfl] at h
      simpa using h.symm

/-- C7: `BackfillVerifier.verify` on an empty block list succeeds for every
hashing collaborator, every signature-set extractor, every batch verifier and
every anchor root, and leaves the caller array untouched: no linkage check and
no signature verification can influence the result. -/
theorem verifyBlocks_empty_always_ok (hashBlock : BeaconBlockMsg → Root)
    (getProposerSignatureSet : SignedBeaconBlock → SignatureSet)
    (verifySignatureSets : List SignatureSet → Bool) (anchorRoot : Root) :
    verifyBlocks hashBlock getProposerSignatureSet verifySignatureSets [] anchorRoot
      = (.ok (), []) := rfl

/-- C1: the code does not propagate the parent root from one loop iteration
to the next (`nextRoot` is a `const` that stays `anchorRoot`), so (first
conjunct) no input whatsoever can produce the `NOT_LINEAR` error; and at the
concrete two-block chain that is correctly anchored (the newest block `b1C1`
hashes to `anchorC1` and records the hash of the oldest block as its parent
root), the code throws `NOT_ANCHORED` — both when the oldest block is intact,
where the claim expects success of the linkage phase, and when the oldest
block has a mutated parent-root field, where the claim expects `NOT_LINEAR`. -/
theorem verifyBlocks_no_parent_propagation :
    (∀ (hashBlock : BeaconBlockMsg → Root)
       (getProposerSignatureSet : SignedBeaconBlock → SignatureSet)
       (verifySignatureSets : List SignatureSet → Bool)
       (blocks : List SignedBeaconBlock) (anchorRoot : Root)
       (e : BackfillSyncErrorCode),
        (verifyBlocks hashBlock getProposerSignatureSet verifySignatureSets
            blocks anchorRoot).1 = .error e →
        e = .NOT_ANCHORED ∨ e = .INVALID_SIGNATURE) ∧
    hashC1 b1C1.message = anchorC1 ∧
    b1C1.message.parentRoot = hashC1 b0C1.message ∧
    (verifyBlocks hashC1 sigSetC1 blsTrue [b0C1, b1C1] anchorC1).1
      = .error .NOT_ANCHORED ∧
    (verifyBlocks hashC1 sigSetC1 blsTrue [b0mutC1, b1C1] anchorC1).1
      = .error .NOT_ANCHORED := by
  refine ⟨?_, by decide, by decide, by decide, by decide⟩
  intro hashBlock g v blocks anchorRoot e h
  unfold verifyBlocks at h
  split at h
  · simp at h
  · split at h
    next e' heq =>
      have he' : e' = e := by simpa using h
      rw [he'] at heq
      exact Or.inl (linkLoop_fixed_root_error hashBlock blocks.reverse anchorRoot e heq)
    next heq =>
      split at h
      · simp only [Prod.fst] at h
        exact Or.inr (by simpa using h.symm)
      · simp at h

/-- Closed instance of the first conjunct of
`verifyBlocks_no_parent_propagation`: at the concrete correctly anchored
chain with the oldest parent link broken, the thrown code is in the set
allowed by the theorem. -/
theorem verifyBlocks_no_parent_propagation_inst :
    BackfillSyncErrorCode.NOT_ANCHORED = .NOT_ANCHORED ∨
      BackfillSyncErrorCode.NOT_ANCHORED = .INVALID_SIGNATURE :=
  verifyBlocks_no_parent_propagation.1 hashC1 sigSetC1 blsTrue
    [b0mutC1, b1C1] anchorC1 .NOT_ANCHORED (by decide)

/-- C3: on every path on which the linkage loop fails, `verifyBlocks` returns
that linkage error and its outcome is independent of the signature-set
extractor and of the batch verifier (so no cryptographic work is observable
there); and when the linkage loop passes on a non-empty list, a batch
verifier that answers `false` on the extracted signature sets makes the call
fail with `INVALID_SIGNATURE`. -/
theorem verifyBlocks_linkage_before_crypto
    (hashBlock : BeaconBlockMsg → Root)
    (g g2 : SignedBeaconBlock → SignatureSet)
    (v v2 : List SignatureSet → Bool)
    (blocks : List SignedBeaconBlock) (anchorRoot : Root) :
    (∀ e : BackfillSyncErrorCode,
        linkLoop hashBlock blocks.reverse anchorRoot anchorRoot = .error e →
        verifyBlocks hashBlock g v blocks anchorRoot = (.error e, blocks.reverse) ∧
        verifyBlocks hashBlock g v blocks anchorRoot
          = verifyBlocks hashBlock g2 v2 blocks anchorRoot) ∧
    (blocks ≠ [] →
        linkLoop hashBlock blocks.reverse anchorRoot anchorRoot = .ok () →
        v (blocks.reverse.map g) = false →
        verifyBlocks hashBlock g v blocks anchorRoot
          = (.error .INVALID_SIGNATURE, blocks.reverse)) := by
  constructor
  · intro e he
    have hne : blocks ≠ [] := by rintro rfl; simp [linkLoop] at he
    have hlen : ¬ blocks.length = 0 := fun h0 => hne (List.length_eq_zero.mp h0)
    constructor
    · unfold verifyBlocks
      simp only [if_neg hlen]
      rw [he]
    · unfold verifyBlocks
      simp only [if_neg hlen]
      rw [he]
  · intro hne hok hv
    have hlen : ¬ blocks.length = 0 := fun h0 => hne (List.length_eq_zero.mp h0)
    unfold verifyBlocks
    simp only [if_neg hlen]
    rw [hok, hv]
    rfl

/-- Closed instance of `verifyBlocks_linkage_before_crypto`: a failing
linkage (intact two-block chain, which the unpropagated loop rejects) yields
that linkage error for any verifier, and a passing linkage (single anchored
block) with an all-false verifier yields `INVALID_SIGNATURE`. -/
theorem verifyBlocks_linkage_before_crypto_inst :
    verifyBlocks hashC1 sigSetC1 blsTrue [b0C1, b1C1] anchorC1
      = (.error .NOT_ANCHORED, [b1C1, b0C1]) ∧
    verifyBlocks hashC1 sigSetC1 blsFalse [b1C1] anchorC1
      = (.error .INVALID_SIGNATURE, [b1C1]) :=
  ⟨((verifyBlocks_linkage_before_crypto hashC1 sigSetC1 sigSetC1 blsTrue blsTrue
      [b0C1, b1C1] anchorC1).1 .NOT_ANCHORED (by decide)).1,
   (verifyBlocks_linkage_before_crypto hashC1 sigSetC1 sigSetC1 blsFalse blsFalse
      [b1C1] anchorC1).2 (by decide) (by decide) (by decide)⟩

/-- C10: for every non-empty input list the caller array after the call is
the reversed input — on the success path as well as on every thrown path —
and the batch verifier influences the result only through its value on the
signature sets extracted from the reversed array (oldest first). -/
theorem verifyBlocks_reverses_caller_array
    (hashBlock : BeaconBlockMsg → Root)
    (g : SignedBeaconBlock → SignatureSet)
    (v v2 : List SignatureSet → Bool)
    (blocks : List SignedBeaconBlock) (anchorRoot : Root)
    (hne : blocks ≠ []) :
    (verifyBlocks hashBlock g v blocks anchorRoot).2 = blocks.reverse ∧
    (v (blocks.reverse.map g) = v2 (blocks.reverse.map g) →
      (verifyBlocks hashBlock g v blocks anchorRoot).1
        = (verifyBlocks hashBlock g v2 blocks anchorRoot).1) := by
  have hlen : ¬ blocks.length = 0 := fun h0 => hne (List.length_eq_zero.mp h0)
  constructor
  · unfold verifyBlocks
    simp only [if_neg hlen]
    split
    · rfl
    · split <;> rfl
  · intro hvv
    unfold verifyBlocks
    simp only [if_neg hlen]
    split
    · rfl
    · rw [hvv]

/-- Closed instance of `verifyBlocks_reverses_caller_array`: on the concrete
two-block chain the caller array afterwards is the reversed input, and two
different batch verifiers that agree on the extracted sets give the same
result. -/
theorem verifyBlocks_reverses_caller_array_inst :
    (verifyBlocks hashC1 sigSetC1 blsTrue [b0C1, b1C1] anchorC1).2 = [b1C1, b0C1] ∧
    (verifyBlocks hashC1 sigSetC1 blsTrue [b0C1, b1C1] anchorC1).1
      = (verifyBlocks hashC1 sigSetC1 blsLenTwo [b0C1, b1C1] anchorC1).1 := by
  have h := verifyBlocks_reverses_caller_array hashC1 sigSetC1 blsTrue blsLenTwo
    [b0C1, b1C1] anchorC1 (by decide)
  exact ⟨by rw [h.1]; decide, h.2 (by decide)⟩

/-! ## Data model: the state-transition engine (chain/stateTransition/block)

`processBlock(state, block, verify)` in the source has return type `void`:
each stage call receives the `state` object by reference and transitions it
in place.  The embedding makes that mutation explicit — the returned
`BeaconState` is the content of the caller state variable after the call
(`Except.error` when a stage threw).  The stage bodies are imported from
./blockHeader, ./randao, ./eth1Data, ./operations and ./rootVerification,
which are not among the sources, so they are modelled from the spec. -/

def GENESIS_SLOT : Nat := 0

def ZERO_HASH : Root := 0

/-- The latest-block-header summary embedded in a state (and the header type
hashed for checkpoint roots). -/
structure BeaconBlockHeader where
  slot : Nat
  proposerIndex : Nat
  parentRoot : Root
  stateRoot : Root
  bodyRoot : Root
deriving DecidableEq

/-- The block body fields the modelled stages read: the randao reveal, the
eth1 vote of the block, and its list of operations (kept opaque). -/
structure BeaconBlockBody where
  randaoReveal : Nat
  eth1Data : Nat
  operations : List Nat
deriving DecidableEq

/-- A full block as consumed by the transition engine. -/
structure BeaconBlock where
  slot : Nat
  proposerIndex : Nat
  parentRoot : Root
  stateRoot : Root
  body : BeaconBlockBody
deriving DecidableEq

/-- The fields of the consensus state the verified fragment touches. -/
structure BeaconState where
  slot : Nat
  latestBlockHeader : BeaconBlockHeader
  randaoMix : Nat
  eth1DataVotes : List Nat
  opsLog : List Nat
deriving DecidableEq

/-- The distinct signaled failure conditions of the transition (spec section
4.1); the modelled stages below only ever raise the header and state-root
conditions, the other constructors mirror the taxonomy. -/
inductive TransitionError where
  | INVALID_HEADER
  | INVALID_RANDAO
  | INVALID_ETH1_DATA
  | INVALID_OPERATION
  | INVALID_STATE_ROOT
deriving DecidableEq

/-- Modelled from the spec: `processBlockHeader` (imported from
"./blockHeader", absent from the sources) — "validate/update the block header
field of state (checks parent-root linkage and slot monotonicity)"; the
header is recorded "with a zeroed state root at block-production time"; its
body root is the hash of the block body.  The `verify` flag it receives
gates a proposer check against an external cryptographic collaborator, which
is out of the modelled fragment, so the flag is unused here. -/
def processBlockHeader (hashHeader : BeaconBlockHeader → Root)
    (hashBody : BeaconBlockBody → Root)
    (state : BeaconState) (block : BeaconBlock) (_verify : Bool) :
    Except TransitionError BeaconState :=
  if block.parentRoot = hashHeader state.latestBlockHeader ∧
      state.latestBlockHeader.slot < block.slot then
    .ok { state with latestBlockHeader :=
            ⟨block.slot, block.proposerIndex, block.parentRoot, ZERO_HASH,
              hashBody block.body⟩ }
  else
    .error .INVALID_HEADER

/-- Modelled from the spec: `processRandao` (imported from "./randao",
absent from the sources) — "mix the randao reveal into the running randao
mix"; validity of the reveal is an external cryptographic collaborator. -/
def processRandao (state : BeaconState) (body : BeaconBlockBody) : BeaconState :=
  { state with randaoMix := Nat.xor state.randaoMix body.randaoReveal }

/-- Modelled from the spec: `processEth1Data` (imported from "./eth1Data",
absent from the sources) — "fold the block eth1 vote into the eth1 data
tally". -/
def processEth1Data (state : BeaconState) (body : BeaconBlockBody) : BeaconState :=
  { state with eth1DataVotes := state.eth1DataVotes ++ [body.eth1Data] }

/-- Modelled from the spec: `processOperations` (imported from
"./operations", absent from the sources) — "process each operation category
in a fixed, fork-defined order"; the per-category semantics is abstracted as
recording the block operations, in order, in the state operation log. -/
def processOperations (state : BeaconState) (body : BeaconBlockBody) : BeaconState :=
  { state with opsLog := state.opsLog ++ body.operations }

/-- Modelled from the spec: `verifyBlockStateRoot` (imported from
"./rootVerification", absent from the sources) — "compute the hash of the
resulting state and compare against the block declared state root". -/
def verifyBlockStateRoot (hashState : BeaconState → Root)
    (state : BeaconState) (block : BeaconBlock) : Except TransitionError Unit :=
  if hashState state = block.stateRoot then .ok () else .error .INVALID_STATE_ROOT

/-- The sequence of the three always-run stages that follow the header
stage, in source order: randao, then eth1 data, then operations. -/
def blockStages (state : BeaconState) (body : BeaconBlockBody) : BeaconState :=
  processOperations (processEth1Data (processRandao state body) body) body

/-- `processBlock(state, block, verify)` from chain/stateTransition/block.
The source returns `void` and transitions `state` in place through
`processBlockHeader`, `processRandao`, `processEth1Data`,
`processOperations` and, only under `if(verify)`, `verifyBlockStateRoot`;
the embedding threads the state explicitly and returns the content of the
caller state variable after the call. -/
def processBlock (hashHeader : BeaconBlockHeader → Root)
    (hashBody : BeaconBlockBody → Root) (hashState : BeaconState → Root)
    (state : BeaconState) (block : BeaconBlock) (verify : Bool) :
    Except TransitionError BeaconState :=
  match processBlockHeader hashHeader hashBody state block verify with
  | .error e => .error e
  | .ok s1 =>
    if verify then
      match verifyBlockStateRoot hashState (blockStages s1 block.body) block with
      | .error e => .error e
      | .ok () => .ok (blockStages s1 block.body)
    else
      .ok (blockStages s1 block.body)

/-! Concrete instances used to evaluate `processBlock` at specific inputs. -/

def hashHeaderT : BeaconBlockHeader → Root :=
  fun h => h.slot * 100 + h.parentRoot * 10 + h.stateRoot + 1

def hashBodyT : BeaconBlockBody → Root := fun b => b.randaoReveal + 3

def hashStateT : BeaconState → Root := fun s => s.randaoMix + s.slot

/-- A state whose embedded header hashes to 1 under `hashHeaderT`. -/
def stateT0 : BeaconState := ⟨0, ⟨0, 0, 0, 0, 0⟩, 0, [], []⟩

/-- A block that passes the header stage on `stateT0`: parent root 1 links to
the embedded header of `stateT0`, slot 1 is monotone. -/
def blockT0 : BeaconBlock := ⟨1, 0, 1, 0, ⟨5, 9, [2]⟩⟩

/-- The content of the state variable after the header stage on
(`stateT0`, `blockT0`). -/
def stateT1 : BeaconState := ⟨0, ⟨1, 0, 1, 0, 8⟩, 0, [], []⟩

/-- The content of the state variable after the full transition on
(`stateT0`, `blockT0`): randao mixed, eth1 vote recorded, operation logged. -/
def stateT2 : BeaconState := ⟨0, ⟨1, 0, 1, 0, 8⟩, 5, [9], [2]⟩

/-- C2 counterexample: at the concrete input (`stateT0`, `blockT0`) the call
succeeds and the caller state variable afterwards holds `stateT2`, which is
structurally different from the input `stateT0` — `processBlock` returns
`void` in the source and transitions its argument in place, so the input
state is not left structurally unchanged. -/
theorem processBlock_not_pure_cx :
    processBlock hashHeaderT hashBodyT hashStateT stateT0 blockT0 false
      = .ok stateT2 ∧ stateT2 ≠ stateT0 := by decide

/-- C2 (amended): `processBlock` transitions the caller state in place: on
every successful call the state observed by the caller afterwards has the
block header recorded (with zeroed state root), the randao reveal mixed in,
the eth1 vote appended and the operations logged on top of the input state,
keeps the input slot, and — whenever the embedded header slot of the input
differs from the block slot, the generic case — is structurally different
from the input state. -/
theorem processBlock_mutates_in_place (hashHeader : BeaconBlockHeader → Root)
    (hashBody : BeaconBlockBody → Root) (hashState : BeaconState → Root)
    (s : BeaconState) (b : BeaconBlock) (s' : BeaconState) (v : Bool)
    (h : processBlock hashHeader hashBody hashState s b v = .ok s') :
    s'.latestBlockHeader
      = ⟨b.slot, b.proposerIndex, b.parentRoot, ZERO_HASH, hashBody b.body⟩ ∧
    s'.randaoMix = Nat.xor s.randaoMix b.body.randaoReveal ∧
    s'.eth1DataVotes = s.eth1DataVotes ++ [b.body.eth1Data] ∧
    s'.opsLog = s.opsLog ++ b.body.operations ∧
    s'.slot = s.slot ∧
    (s.latestBlockHeader.slot ≠ b.slot → s' ≠ s) := by
  unfold processBlock at h
  split at h
  · simp at h
  next s1 heq =>
    have hs1 : s1 = { s with latestBlockHeader :=
        ⟨b.slot, b.proposerIndex, b.parentRoot, ZERO_HASH, hashBody b.body⟩ } := by
      unfold processBlockHeader at heq
      split at heq
      · simpa using heq.symm
      · simp at heq
    have hs' : s' = blockStages s1 b.body := by
      split at h
      · split at h
        · simp at h
        · simpa using h.symm
      · simpa using h.symm
    subst hs1 hs'
    refine ⟨rfl, rfl, rfl, rfl, rfl, ?_⟩
    intro hslot heqss
    apply hslot
    rw [← heqss]
    rfl

/-- Closed instance of `processBlock_mutates_in_place` at
(`stateT0`, `blockT0`): the randao reveal was mixed into the caller state and
the caller state changed. -/
theorem processBlock_mutates_in_place_inst :
    stateT2.randaoMix = Nat.xor stateT0.randaoMix blockT0.body.randaoReveal ∧
    stateT2 ≠ stateT0 := by
  have h := processBlock_mutates_in_place hashHeaderT hashBodyT hashStateT
    stateT0 blockT0 stateT2 false (by decide)
  exact ⟨h.2.1, h.2.2.2.2.2 (by decide)⟩

/-- C5: whenever the header stage succeeds, `processBlock` with
`verify = false` is exactly the fixed pipeline randao, then eth1 data, then
operations, with no state-root comparison; with `verify = true` it is the
same pipeline followed by the state-root comparison of the resulting state
hash against the block declared state root; and no call with
`verify = false` can fail with the state-root condition — only with one of
the stage conditions. -/
theorem processBlock_stage_order_and_root_skip
    (hashHeader : BeaconBlockHeader → Root) (hashBody : BeaconBlockBody → Root)
    (hashState : BeaconState → Root) (s : BeaconState) (b : BeaconBlock) :
    (∀ s1, processBlockHeader hashHeader hashBody s b false = .ok s1 →
        processBlock hashHeader hashBody hashState s b false =
          .ok (processOperations (processEth1Data (processRandao s1 b.body)
                b.body) b.body)) ∧
    (∀ s1, processBlockHeader hashHeader hashBody s b true = .ok s1 →
        processBlock hashHeader hashBody hashState s b true =
          (if hashState (processOperations (processEth1Data (processRandao s1 b.body)
                b.body) b.body) = b.stateRoot
           then .ok (processOperations (processEth1Data (processRandao s1 b.body)
                b.body) b.body)
           else .error .INVALID_STATE_ROOT)) ∧
    (∀ e, processBlock hashHeader hashBody hashState s b false = .error e →
        e = .INVALID_HEADER ∨ e = .INVALID_RANDAO ∨ e = .INVALID_ETH1_DATA ∨
          e = .INVALID_OPERATION) := by
  refine ⟨?_, ?_, ?_⟩
  · intro s1 h1
    unfold processBlock
    rw [h1]
    rfl
  · intro s1 h1
    unfold processBlock
    rw [h1]
    simp only [verifyBlockStateRoot, blockStages]
    by_cases hr : hashState (processOperations (processEth1Data (processRandao s1 b.body)
        b.body) b.body) = b.stateRoot
    · rw [if_pos hr, if_pos hr]
      rfl
    · rw [if_neg hr, if_neg hr]
      rfl
  · intro e h
    unfold processBlock at h
    split at h
    next e' heq =>
      have he' : e' = e := by simpa using h
      unfold processBlockHeader at heq
      split at heq
      · simp at heq
      · refine Or.inl ?_
        rw [← he']
        simpa using heq.symm
    · simp at h

/-- Closed instance of `processBlock_stage_order_and_root_skip`: on the
concrete input the unverified call equals the stage pipeline output. -/
theorem processBlock_stage_order_and_root_skip_inst :
    processBlock hashHeaderT hashBodyT hashStateT stateT0 blockT0 false
      = .ok stateT2 := by
  have h := (processBlock_stage_order_and_root_skip hashHeaderT hashBodyT
    hashStateT stateT0 blockT0).1 stateT1 (by decide)
  rw [h]
  decide

/-! ## Anchor-state initialization (chain/initState) -/

/-- `phase0.Checkpoint`: an (epoch, root) pair. -/
structure Checkpoint where
  epoch : Nat
  root : Root
deriving DecidableEq

/-- Modelled from the spec: `computeEpochAtSlot` (imported from the
state-transition package, absent from the sources) — "the epoch containing
the state's slot"; per the glossary "an epoch spans a fixed number of
slots". -/
def computeEpochAtSlot (slotsPerEpoch slot : Nat) : Nat := slot / slotsPerEpoch

/-- `config.getTypes(slot).BeaconBlock.defaultValue()`: the default-valued
block (all fields zero, default body). -/
def defaultBlock : BeaconBlock := ⟨0, 0, 0, 0, ⟨0, 0, []⟩⟩

/-- Modelled from the spec: `blockToHeader` (imported from the
state-transition package, absent from the sources) — per the data model a
block header is the "compact summary of a block (slot, proposer index,
parent root, state root, body root)", the body root being the hash of the
body. -/
def blockToHeader (hashBody : BeaconBlockBody → Root) (b : BeaconBlock) :
    BeaconBlockHeader :=
  ⟨b.slot, b.proposerIndex, b.parentRoot, b.stateRoot, hashBody b.body⟩

/-- `computeAnchorCheckpoint(config, anchorState)` from chain/initState.
`hashState` stands for `config.getTypes(slot).BeaconState.hashTreeRoot`,
`hashHeader` for `config.getTypes(slot).BeaconBlockHeader.hashTreeRoot`;
the ssz `clone` of the embedded header is the value itself in the pure
embedding. -/
def computeAnchorCheckpoint (slotsPerEpoch : Nat)
    (hashHeader : BeaconBlockHeader → Root) (hashBody : BeaconBlockBody → Root)
    (hashState : BeaconState → Root) (anchorState : BeaconState) :
    Checkpoint × BeaconBlockHeader :=
  if anchorState.latestBlockHeader.slot = GENESIS_SLOT then
    let block := { defaultBlock with stateRoot := hashState anchorState }
    let blockHeader := blockToHeader hashBody block
    (⟨computeEpochAtSlot slotsPerEpoch anchorState.slot, hashHeader blockHeader⟩,
      blockHeader)
  else
    let blockHeader :=
      if anchorState.latestBlockHeader.stateRoot = ZERO_HASH then
        { anchorState.latestBlockHeader with stateRoot := hashState anchorState }
      else
        anchorState.latestBlockHeader
    (⟨computeEpochAtSlot slotsPerEpoch anchorState.slot, hashHeader blockHeader⟩,
      blockHeader)

/-- C4: the checkpoint epoch is always the epoch containing the state slot;
for a state whose embedded header has the genesis slot the checkpoint root
is the hash of the synthesized header — state-root field the hash of the
state, every other field that of the default block; for any other state the
root is the hash of the embedded header with its state-root field patched by
the state hash exactly when that field is the zero placeholder. -/
theorem computeAnchorCheckpoint_spec (slotsPerEpoch : Nat)
    (hashHeader : BeaconBlockHeader → Root) (hashBody : BeaconBlockBody → Root)
    (hashState : BeaconState → Root) (s : BeaconState) :
    (computeAnchorCheckpoint slotsPerEpoch hashHeader hashBody hashState s).1.epoch
      = computeEpochAtSlot slotsPerEpoch s.slot ∧
    (s.latestBlockHeader.slot = GENESIS_SLOT →
      (computeAnchorCheckpoint slotsPerEpoch hashHeader hashBody hashState s).1.root
        = hashHeader ⟨defaultBlock.slot, defaultBlock.proposerIndex,
            defaultBlock.parentRoot, hashState s, hashBody defaultBlock.body⟩) ∧
    (s.latestBlockHeader.slot ≠ GENESIS_SLOT →
      s.latestBlockHeader.stateRoot = ZERO_HASH →
      (computeAnchorCheckpoint slotsPerEpoch hashHeader hashBody hashState s).1.root
        = hashHeader { s.latestBlockHeader with stateRoot := hashState s }) ∧
    (s.latestBlockHeader.slot ≠ GENESIS_SLOT →
      s.latestBlockHeader.stateRoot ≠ ZERO_HASH →
      (computeAnchorCheckpoint slotsPerEpoch hashHeader hashBody hashState s).1.root
        = hashHeader s.latestBlockHeader) := by
  refine ⟨?_, ?_, ?_, ?_⟩
  · unfold computeAnchorCheckpoint
    split
    · rfl
    · rfl
  · intro hg
    unfold computeAnchorCheckpoint
    rw [if_pos hg]
    rfl
  · intro hg hz
    unfold computeAnchorCheckpoint
    rw [if_neg hg]
    simp only [if_pos hz]
  · intro hg hz
    unfold computeAnchorCheckpoint
    rw [if_neg hg]
    simp only [if_neg hz]

/-- A genesis-like anchor state: embedded header at the genesis slot. -/
def stateGW : BeaconState := ⟨0, ⟨0, 0, 0, 0, 0⟩, 4, [], []⟩

/-- A non-genesis anchor state whose embedded header carries the zero
state-root placeholder. -/
def stateNZW : BeaconState := ⟨65, ⟨64, 3, 17, 0, 21⟩, 6, [], []⟩

/-- Closed instance of `computeAnchorCheckpoint_spec` at a genesis-header
state and at a non-genesis state with the zero placeholder, under concrete
hash collaborators. -/
theorem computeAnchorCheckpoint_spec_inst :
    (computeAnchorCheckpoint 32 hashHeaderT hashBodyT hashStateT stateGW).1.root
      = hashHeaderT ⟨defaultBlock.slot, defaultBlock.proposerIndex,
          defaultBlock.parentRoot, hashStateT stateGW, hashBodyT defaultBlock.body⟩ ∧
    (computeAnchorCheckpoint 32 hashHeaderT hashBodyT hashStateT stateNZW).1.root
      = hashHeaderT { stateNZW.latestBlockHeader with stateRoot := hashStateT stateNZW } :=
  ⟨(computeAnchorCheckpoint_spec 32 hashHeaderT hashBodyT hashStateT stateGW).2.1
      (by decide),
   (computeAnchorCheckpoint_spec 32 hashHeaderT hashBodyT hashStateT stateNZW).2.2.1
      (by decide) (by decide)⟩

/-! ## State caches (chain/stateCache) and `restoreStateCaches` -/

/-- Modelled from the spec: the derived epoch context of a `CachedState`
("validator index to pubkey mapping, proposer/committee shuffling"), kept as
the index-to-pubkey table. -/
structure EpochContext where
  index2pubkey : List Nat
deriving DecidableEq

/-- A state value paired with its derived epoch context. -/
structure CachedBeaconState where
  state : BeaconState
  epochCtx : EpochContext
deriving DecidableEq

/-- Modelled from the spec: `createCachedBeaconState` (imported from the
state-transition package, absent from the sources) — "wraps the raw state
with derived epoch context to form a CachedState"; the derivation itself is
the collaborator `deriveEpochContext`. -/
def createCachedBeaconState (deriveEpochContext : BeaconState → EpochContext)
    (state : BeaconState) : CachedBeaconState :=
  ⟨state, deriveEpochContext state⟩

/-- Modelled from the spec: insertion into one of the two cache indices —
"insertion overwrites any prior entry under the same key (at most one live
materialization per key)".  The cache is an association list keyed by κ. -/
def cacheAdd {κ : Type} [DecidableEq κ] (key : κ) (val : CachedBeaconState)
    (cache : List (κ × CachedBeaconState)) : List (κ × CachedBeaconState) :=
  (key, val) :: cache.filter (fun kv => decide (kv.1 ≠ key))

/-- Modelled from the spec: lookup in a cache index by its key. -/
def cacheGet {κ : Type} [DecidableEq κ] (key : κ)
    (cache : List (κ × CachedBeaconState)) : Option CachedBeaconState :=
  (cache.find? (fun kv => decide (kv.1 = key))).map (fun kv => kv.2)

/-- A lookup directly after an insertion under the same key returns the
inserted value. -/
theorem cacheGet_cacheAdd {κ : Type} [DecidableEq κ] (key : κ)
    (val : CachedBeaconState) (cache : List (κ × CachedBeaconState)) :
    cacheGet key (cacheAdd key val cache) = some val := by
  simp [cacheGet, cacheAdd]

/-- `restoreStateCaches(config, stateCache, checkpointStateCache, state)`
from chain/initState: computes the anchor checkpoint, wraps the state as a
`CachedBeaconState`, and adds it to the root-indexed cache (keyed by the
state hash root, as `StateContextCache.add` does) and to the
checkpoint-indexed cache under the computed checkpoint.  The two updated
indices are returned. -/
def restoreStateCaches (slotsPerEpoch : Nat)
    (hashHeader : BeaconBlockHeader → Root) (hashBody : BeaconBlockBody → Root)
    (hashState : BeaconState → Root)
    (deriveEpochContext : BeaconState → EpochContext)
    (stateCache : List (Root × CachedBeaconState))
    (checkpointStateCache : List (Checkpoint × CachedBeaconState))
    (state : BeaconState) :
    List (Root × CachedBeaconState) × List (Checkpoint × CachedBeaconState) :=
  let checkpoint :=
    (computeAnchorCheckpoint slotsPerEpoch hashHeader hashBody hashState state).1
  let cachedBeaconState := createCachedBeaconState deriveEpochContext state
  (cacheAdd (hashState state) cachedBeaconState stateCache,
    cacheAdd checkpoint cachedBeaconState checkpointStateCache)

/-- C6: after `restoreStateCaches`, looking the root-indexed cache up by the
state hash root and looking the checkpoint-indexed cache up by the computed
anchor checkpoint both return the single inserted `CachedBeaconState`, whose
wrapped state is the given state — so the two lookups return states with
identical content. -/
theorem restoreStateCaches_both_lookups (slotsPerEpoch : Nat)
    (hashHeader : BeaconBlockHeader → Root) (hashBody : BeaconBlockBody → Root)
    (hashState : BeaconState → Root)
    (deriveEpochContext : BeaconState → EpochContext)
    (stateCache : List (Root × CachedBeaconState))
    (checkpointStateCache : List (Checkpoint × CachedBeaconState))
    (state : BeaconState) :
    cacheGet (hashState state)
        (restoreStateCaches slotsPerEpoch hashHeader hashBody hashState
          deriveEpochContext stateCache checkpointStateCache state).1
      = some (createCachedBeaconState deriveEpochContext state) ∧
    cacheGet
        (computeAnchorCheckpoint slotsPerEpoch hashHeader hashBody hashState state).1
        (restoreStateCaches slotsPerEpoch hashHeader hashBody hashState
          deriveEpochContext stateCache checkpointStateCache state).2
      = some (createCachedBeaconState deriveEpochContext state) ∧
    (createCachedBeaconState deriveEpochContext state).state = state := by
  refine ⟨?_, ?_, rfl⟩
  · exact cacheGet_cacheAdd (hashState state)
      (createCachedBeaconState deriveEpochContext state) stateCache
  · exact cacheGet_cacheAdd
      (computeAnchorCheckpoint slotsPerEpoch hashHeader hashBody hashState state).1
      (createCachedBeaconState deriveEpochContext state) checkpointStateCache

/-! ## `initStateFromDb` (chain/initState) -/

/-- Modelled from the spec: the storage collaborator method
`db.stateArchive.lastValue()` — "loads the most recently archived state";
the archive is the list of archived states in insertion order, so the most
recently archived one is the last. -/
def stateArchiveLastValue (stateArchive : List BeaconState) : Option BeaconState :=
  stateArchive.getLast?

/-- `initStateFromDb(config, db, logger)` from chain/initState: reads
`db.stateArchive.lastValue()`; a missing value raises
"No state exists in database", otherwise the state is returned (logging is
an observability sink with no effect on the result). -/
def initStateFromDb (stateArchive : List BeaconState) :
    Except String BeaconState :=
  match stateArchiveLastValue stateArchive with
  | none => .error "No state exists in database"
  | some state => .ok state

/-- C9: `initStateFromDb` returns the most recently archived state, and
fails — with the distinct no-state-in-storage error and with no state
returned — exactly when the archive holds no state. -/
theorem initStateFromDb_spec (stateArchive : List BeaconState) :
    (stateArchive = [] →
      initStateFromDb stateArchive = .error "No state exists in database") ∧
    (∀ s, stateArchiveLastValue stateArchive = some s →
      initStateFromDb stateArchive = .ok s) ∧
    (∀ e, initStateFromDb stateArchive = .error e →
      stateArchive = [] ∧ e = "No state exists in database") := by
  refine ⟨?_, ?_, ?_⟩
  · rintro rfl
    rfl
  · intro s hs
    unfold initStateFromDb
    rw [hs]
  · intro e he
    unfold initStateFromDb at he
    split at he
    next hnone =>
      refine ⟨?_, by simpa using he.symm⟩
      unfold stateArchiveLastValue at hnone
      exact List.getLast?_eq_none_iff.mp hnone
    · simp at he

/-- Closed instance of `initStateFromDb_spec`: the empty archive fails with
the distinct error, and the archive holding exactly `stateT0` returns it. -/
theorem initStateFromDb_spec_inst :
    initStateFromDb [] = .error "No state exists in database" ∧
    initStateFromDb [stateT0] = .ok stateT0 :=
  ⟨(initStateFromDb_spec []).1 rfl,
   (initStateFromDb_spec [stateT0]).2.1 stateT0 rfl⟩

/-! ## Voluntary-exit signature sets
(beacon-state-transition/allForks/signatureSets/voluntaryExits.ts) -/

/-- `phase0.VoluntaryExit`: the exit message. -/
structure VoluntaryExit where
  epoch : Nat
  validatorIndex : Nat
deriving DecidableEq

/-- `phase0.SignedVoluntaryExit`. -/
structure SignedVoluntaryExit where
  message : VoluntaryExit
  signature : Nat
deriving DecidableEq

/-- `config.params.DOMAIN_VOLUNTARY_EXIT`, an opaque domain-type tag. -/
def DOMAIN_VOLUNTARY_EXIT : Nat := 4

/-- Modelled from the spec: `computeStartSlotAtEpoch` (imported from the
state-transition utils, absent from the sources) — the first slot of the
epoch, with "an epoch spans a fixed number of slots". -/
def computeStartSlotAtEpoch (slotsPerEpoch epoch : Nat) : Nat :=
  epoch * slotsPerEpoch

/-- The pieces of `CachedBeaconState` that `getVoluntaryExitSignatureSet`
reads: the epoch length from `config`, the `getDomain` method resolving a
(domain type, slot) pair to a signing domain, and the `epochCtx`
index-to-pubkey table. -/
structure ExitSigningState where
  slotsPerEpoch : Nat
  getDomain : Nat → Nat → Nat
  index2pubkey : List Nat

/-- `getVoluntaryExitSignatureSet(state, signedVoluntaryExit)`.
`computeSigningRoot` stands for the imported utility
`computeSigningRoot(config, type, message, domain)` over the canonical
encoding of the exit message; indexing `epochCtx.index2pubkey` at the exit
validator index is `List.getD` with default 0.  The function is pure: it
performs no cryptographic check and no mutation. -/
def getVoluntaryExitSignatureSet
    (computeSigningRoot : VoluntaryExit → Nat → Root)
    (state : ExitSigningState) (signedVoluntaryExit : SignedVoluntaryExit) :
    SignatureSet :=
  let slot := computeStartSlotAtEpoch state.slotsPerEpoch
    signedVoluntaryExit.message.epoch
  let domain := state.getDomain DOMAIN_VOLUNTARY_EXIT slot
  ⟨.single,
    state.index2pubkey.getD signedVoluntaryExit.message.validatorIndex 0,
    computeSigningRoot signedVoluntaryExit.message domain,
    signedVoluntaryExit.signature⟩

/-- C8: for every state and signed voluntary exit the extracted signature
set is the single-type set whose pubkey is the entry of the state
index-to-pubkey table at the exit validator index, whose signing root is the
canonical signing root of the exit message under the domain resolved from
the exit epoch via the start slot of that epoch, and whose signature is the
carried one — a pure function of its inputs, so extraction is deterministic
and side-effect-free. -/
theorem getVoluntaryExitSignatureSet_spec
    (computeSigningRoot : VoluntaryExit → Nat → Root)
    (state : ExitSigningState) (sve : SignedVoluntaryExit) :
    getVoluntaryExitSignatureSet computeSigningRoot state sve =
      ⟨SignatureSetType.single,
        state.index2pubkey.getD sve.message.validatorIndex 0,
        computeSigningRoot sve.message
          (state.getDomain DOMAIN_VOLUNTARY_EXIT
            (sve.message.epoch * state.slotsPerEpoch)),
        sve.signature⟩ := rfl
